import Mathlib

/-!
Verification development for a multi-tenant configuration subsystem
(tenant id extraction middleware, context propagation, and a tenant
configuration cache with file watchers).

Strings are embedded as lists of characters so that every operation of
the source is an executable, kernel-evaluable Lean function.
-/

set_option maxHeartbeats 1000000

/-- Models the Go predicate unicode.IsSpace on the Latin-1 range, as used
by strings.TrimSpace in extractTenantID (tenant_middleware.go line 37). -/
def goIsSpace (c : Char) : Bool :=
  c = ' ' || c = '\t' || c = '\n' || c = '\u000b' || c = '\u000c' || c = '\r' ||
  c = '\u0085' || c = '\u00a0'

/-- Models strings.TrimSpace: drop leading and trailing whitespace. -/
def trimSpace (s : List Char) : List Char :=
  ((s.dropWhile goIsSpace).reverse.dropWhile goIsSpace).reverse

/-- Decides whether the pattern (first argument) is a prefix of the second
argument, elementwise on characters. -/
def startsWith : List Char → List Char → Bool
  | [], _ => true
  | _ :: _, [] => false
  | p :: ps, c :: cs => p = c && startsWith ps cs

/-- Recursion core of stripAll, structurally recursive on a fuel argument
so that the kernel can evaluate it; each step consumes at least one
character, so fuel equal to the length of the scanned list is enough. -/
def stripAllFuel (p : Char) (ps : List Char) : Nat → List Char → List Char
  | 0, s => s
  | _ + 1, [] => []
  | fuel + 1, c :: rest =>
    if startsWith (p :: ps) (c :: rest) then
      stripAllFuel p ps fuel (rest.drop ps.length)
    else
      c :: stripAllFuel p ps fuel rest

/-- Models strings.ReplaceAll(s, pat, empty) for a nonempty pattern
p :: ps: scan left to right and remove every non-overlapping occurrence
of the pattern, continuing the scan after each removed occurrence. -/
def stripAll (p : Char) (ps : List Char) (s : List Char) : List Char :=
  stripAllFuel p ps s.length s

/-- Decides whether the pattern occurs as a contiguous subsequence. -/
def containsSub (pat : List Char) : List Char → Bool
  | [] => startsWith pat []
  | c :: rest => startsWith pat (c :: rest) || containsSub pat rest

/-- The fallback tenant identifier DefaultTenantID = "default"
(tenant_middleware.go line 23). -/
def defaultTenantID : List Char := ['d', 'e', 'f', 'a', 'u', 'l', 't']

/-- Models extractTenantID (tenant_middleware.go lines 36-52): trim the
header value; if empty return the default id; otherwise remove all
occurrences of two consecutive dots, then of the forward slash, then of
the backslash; if the result is empty return the default id, else the
sanitized string. -/
def extractTenantID (header : List Char) : List Char :=
  let t := trimSpace header
  if t = [] then defaultTenantID
  else
    let t1 := stripAll '.' ['.'] t
    let t2 := stripAll '/' [] t1
    let t3 := stripAll '\\' [] t2
    if t3 = [] then defaultTenantID else t3


/-!
Context propagation. A Go context value key is compared by interface
equality: the dynamic type and the value must both match. The repository
declares two distinct key types with the same underlying string: the
type TenantContextKey of package x (tenant_middleware.go line 15) and
the type TenantContextKey of package config (tenant manager source,
line 145). A key is therefore embedded as a pair of the declaring type
and the string value.
-/

/-- The two context key types declared by the repository. -/
inductive KeyType
  | xTenantContextKey
  | configTenantContextKey
deriving DecidableEq

/-- A context key: dynamic type together with its string value. -/
structure CtxKey where
  ty : KeyType
  name : List Char
deriving DecidableEq

/-- A context value; str models a Go string, other models any value of a
non-string dynamic type (a failed type assertion to string). -/
inductive CtxValue
  | str : List Char → CtxValue
  | other : Nat → CtxValue
deriving DecidableEq

/-- A request context: innermost WithValue layer first. -/
def Context := List (CtxKey × CtxValue)

/-- Models ctx.Value(key): the innermost layer whose key matches wins;
absence yields none (Go nil). -/
def Context.value : Context → CtxKey → Option CtxValue
  | [], _ => none
  | (k', v) :: rest, k => if k' = k then some v else Context.value rest k

/-- Models context.WithValue: wrap the context in a new layer. -/
def Context.withValue (ctx : Context) (k : CtxKey) (v : CtxValue) : Context :=
  (k, v) :: ctx

/-- The key TenantIDKey = x.TenantContextKey("tenant_id") under which the
middleware stores the tenant id (tenant_middleware.go lines 19 and 30). -/
def xTenantIDKey : CtxKey :=
  ⟨KeyType.xTenantContextKey, ['t', 'e', 'n', 'a', 'n', 't', '_', 'i', 'd']⟩

/-- The key config.TenantContextKey("tenant_id") that
TenantAwareConfig.GetProvider reads (tenant manager source, line 415). -/
def configTenantIDKey : CtxKey :=
  ⟨KeyType.configTenantContextKey, ['t', 'e', 'n', 'a', 'n', 't', '_', 'i', 'd']⟩

/-- Models the context effect of TenantMiddleware (tenant_middleware.go
lines 27-33): extract the tenant id from the header and store it in the
request context under TenantIDKey. -/
def tenantMiddlewareCtx (ctx : Context) (header : List Char) : Context :=
  ctx.withValue xTenantIDKey (CtxValue.str (extractTenantID header))

/-- Models GetTenantID (tenant_middleware.go lines 55-60): the type
assertion to string succeeds only on a string value; otherwise the
default id is returned. -/
def getTenantID (ctx : Context) : List Char :=
  match ctx.value xTenantIDKey with
  | some (CtxValue.str s) => s
  | _ => defaultTenantID

/-- Models the tenant-resolution step of TenantAwareConfig.GetProvider
(tenant manager source, lines 413-419): start from "default"; if the
context holds a non-nil value under config.TenantContextKey("tenant_id")
whose dynamic type is string, use it. -/
def tenantAwareResolveTenantID (ctx : Context) : List Char :=
  match ctx.value configTenantIDKey with
  | some (CtxValue.str s) => s
  | _ => defaultTenantID

/-- True exactly when an optional context value is a string. -/
def isStrValue : Option CtxValue → Bool
  | some (CtxValue.str _) => true
  | _ => false

/-!
The tenant configuration cache. Configuration providers are embedded as
an inductive type: base is the provider of the base configuration
(tm.baseConfig.GetProvider); loaded path gen is a provider instance
created by configx.New from the file at path, with gen a freshness stamp
distinguishing separate instances.
-/

/-- A configuration provider (configx.Provider identity). -/
inductive Provider
  | base
  | loaded : List Char → Nat → Provider
deriving DecidableEq

/-- The external environment of the manager: whether a file exists
(os.Stat) and whether configx.New succeeds on it. -/
structure Env where
  fileExists : List Char → Bool
  loadOk : List Char → Bool

/-- Association-list lookup, first match wins; models Go map indexing. -/
def mapLookup {V : Type} (k : List Char) : List (List Char × V) → Option V
  | [] => none
  | (k', v) :: rest => if k' = k then some v else mapLookup k rest

/-- Removes every binding of a key; models Go delete. -/
def mapErase {V : Type} (k : List Char) : List (List Char × V) → List (List Char × V)
  | [] => []
  | (k', v) :: rest => if k' = k then mapErase k rest else (k', v) :: mapErase k rest

/-- Overwriting insertion; models Go map assignment. -/
def mapInsert {V : Type} (k : List Char) (v : V) (m : List (List Char × V)) :
    List (List Char × V) :=
  (k, v) :: mapErase k m

/-- The TenantManager state (tenant manager source, lines 147-154):
the base configuration provider, the tenant config cache map, the
configuration directory, the watcher map (tenant id to the watched
config path standing for the stored cleanup closure), and a freshness
counter stamping each provider instance created by configx.New. -/
structure TenantManager where
  baseConfig : Provider
  tenantConfigs : List (List Char × Provider)
  configDirectory : List Char
  watchers : List (List Char × List Char)
  nextGen : Nat
deriving DecidableEq

/-- Models NewTenantManager (lines 157-165): empty maps. -/
def NewTenantManager (baseConfig : Provider) (configDirectory : List Char) : TenantManager :=
  ⟨baseConfig, [], configDirectory, [], 0⟩

/-- Models getTenantConfigPath (lines 316-318):
filepath.Join(configDirectory, tenantID, "kratos.yaml"), embedded as
concatenation with the separator (no path cleaning is relied on). -/
def getTenantConfigPath (tm : TenantManager) (tenantID : List Char) : List Char :=
  tm.configDirectory ++ '/' :: tenantID ++
    ['/', 'k', 'r', 'a', 't', 'o', 's', '.', 'y', 'a', 'm', 'l']

/-- Models createTenantProvider (lines 229-240): configx.New on the given
config file either fails (none, state unchanged) or yields a fresh
provider instance, stamped and advancing the freshness counter. -/
def createTenantProvider (env : Env) (tm : TenantManager) (configPath : List Char) :
    Option Provider × TenantManager :=
  if env.loadOk configPath then
    (some (Provider.loaded configPath tm.nextGen), { tm with nextGen := tm.nextGen + 1 })
  else
    (none, tm)

/-- Models the body of setupTenantWatcher (lines 243-313), the code its
lock guards: call any existing cleanup closure (no state effect), then
create the watcher provider with configx.New on the config file; on
failure return without storing anything; on success store the cleanup
closure for the tenant (embedded as the watched path). -/
def setupTenantWatcher (env : Env) (tm : TenantManager) (tenantID configPath : List Char) :
    TenantManager :=
  if env.loadOk configPath then
    { tm with
      watchers := mapInsert tenantID configPath tm.watchers,
      nextGen := tm.nextGen + 1 }
  else
    tm

/-- Models the body of loadTenantConfig (lines 186-226), the code its
write lock guards: re-check the cache; on miss test file existence,
falling back to the base provider when the file is missing; create the
tenant provider, falling back to the base provider on failure; on
success cache the provider, set up the watcher and return the provider.
This is the state effect assuming every lock acquisition succeeds; the
lock-aware variant below also models mutex reentry. -/
def loadTenantConfig (env : Env) (tm : TenantManager) (tenantID : List Char) :
    Provider × TenantManager :=
  match mapLookup tenantID tm.tenantConfigs with
  | some provider => (provider, tm)
  | none =>
    let tenantConfigPath := getTenantConfigPath tm tenantID
    if env.fileExists tenantConfigPath = false then
      (tm.baseConfig, tm)
    else
      match createTenantProvider env tm tenantConfigPath with
      | (none, tm1) => (tm.baseConfig, tm1)
      | (some provider, tm1) =>
        let tm2 := { tm1 with tenantConfigs := mapInsert tenantID provider tm1.tenantConfigs }
        (provider, setupTenantWatcher env tm2 tenantID tenantConfigPath)

/-- Models GetTenantConfig (lines 168-183): the default tenant resolves
to the base provider directly; otherwise a cache hit is returned under
the read lock and a miss falls through to loadTenantConfig. -/
def GetTenantConfig (env : Env) (tm : TenantManager) (tenantID : List Char) :
    Provider × TenantManager :=
  if tenantID = defaultTenantID then
    (tm.baseConfig, tm)
  else
    match mapLookup tenantID tm.tenantConfigs with
    | some provider => (provider, tm)
    | none => loadTenantConfig env tm tenantID

/-- Models InvalidateTenantConfig (lines 321-335): delete the cache
entry; if a watcher exists, call its cleanup and delete it. -/
def InvalidateTenantConfig (tm : TenantManager) (tenantID : List Char) : TenantManager :=
  let tm1 := { tm with tenantConfigs := mapErase tenantID tm.tenantConfigs }
  match mapLookup tenantID tm1.watchers with
  | some _ => { tm1 with watchers := mapErase tenantID tm1.watchers }
  | none => tm1

/-- Models invalidateTenantConfigUnsafe (lines 339-343): delete the
cache entry only. -/
def invalidateTenantConfigUnsafe (tm : TenantManager) (tenantID : List Char) : TenantManager :=
  { tm with tenantConfigs := mapErase tenantID tm.tenantConfigs }

/-- Models preloadTenantConfig (lines 346-363): create a tenant provider
for the config path; on failure return the error with the state
untouched; on success cache the new provider and return it. -/
def preloadTenantConfig (env : Env) (tm : TenantManager) (tenantID configPath : List Char) :
    Option Provider × TenantManager :=
  match createTenantProvider env tm configPath with
  | (none, tm1) => (none, tm1)
  | (some provider, tm1) =>
    (some provider, { tm1 with tenantConfigs := mapInsert tenantID provider tm1.tenantConfigs })

/-- Models the AttachWatcher callback for a non-error file event
(lines 262-288): invalidate the cached config for the tenant, then run
preloadTenantConfig in a background goroutine (its failure is only
logged). -/
def watcherFileChangeCallback (env : Env) (tm : TenantManager) (tenantID configPath : List Char) :
    TenantManager :=
  (preloadTenantConfig env (invalidateTenantConfigUnsafe tm tenantID) tenantID configPath).2

/-- Models Shutdown (lines 439-450): call every cleanup closure (no
state effect) and replace the watcher map with a fresh empty map; the
tenant config cache is not touched. -/
def Shutdown (tm : TenantManager) : TenantManager :=
  { tm with watchers := [] }

/-- The record returned by GetTenantConfigStats. -/
structure TenantConfigStats where
  loadedTenantsCount : Nat
  activeWatchersCount : Nat
  loadedTenantIDs : List (List Char)
  configDirectory : List Char
deriving DecidableEq

/-- Models GetTenantConfigStats (lines 366-376) with
getLoadedTenantsUnsafe (lines 380-386). -/
def GetTenantConfigStats (tm : TenantManager) : TenantConfigStats :=
  ⟨tm.tenantConfigs.length, tm.watchers.length,
    tm.tenantConfigs.map Prod.fst, tm.configDirectory⟩

/-!
Lock-aware variants. tm.mu is a Go sync.RWMutex, which is not
reentrant: a goroutine that holds the write lock and calls Lock or
RLock again blocks forever. The held flag records whether the current
goroutine already holds the write lock; a result of none means the call
never returns (deadlock).
-/

/-- Lock-aware setupTenantWatcher: the function begins with
tm.mu.Lock() (line 244), which deadlocks when the caller already holds
the write lock; otherwise it performs the body. -/
def setupTenantWatcherL (env : Env) (held : Bool) (tm : TenantManager)
    (tenantID configPath : List Char) : Option TenantManager :=
  if held then none
  else some (setupTenantWatcher env tm tenantID configPath)

/-- Lock-aware loadTenantConfig: the function begins with tm.mu.Lock()
(line 187), deadlocking if the write lock is already held by this
goroutine; inside the body the lock is held, so the call to
setupTenantWatcher (line 219) runs with held set to true. -/
def loadTenantConfigL (env : Env) (held : Bool) (tm : TenantManager) (tenantID : List Char) :
    Option (Provider × TenantManager) :=
  if held then none
  else
    match mapLookup tenantID tm.tenantConfigs with
    | some provider => some (provider, tm)
    | none =>
      let tenantConfigPath := getTenantConfigPath tm tenantID
      if env.fileExists tenantConfigPath = false then
        some (tm.baseConfig, tm)
      else
        match createTenantProvider env tm tenantConfigPath with
        | (none, tm1) => some (tm.baseConfig, tm1)
        | (some provider, tm1) =>
          let tm2 := { tm1 with tenantConfigs := mapInsert tenantID provider tm1.tenantConfigs }
          match setupTenantWatcherL env true tm2 tenantID tenantConfigPath with
          | none => none
          | some tm3 => some (provider, tm3)

/-- Lock-aware GetTenantConfig: the read-lock section also deadlocks if
this goroutine already holds the write lock; on a miss the call falls
through to the lock-aware loadTenantConfig. -/
def GetTenantConfigL (env : Env) (held : Bool) (tm : TenantManager) (tenantID : List Char) :
    Option (Provider × TenantManager) :=
  if tenantID = defaultTenantID then
    some (tm.baseConfig, tm)
  else if held then none
  else
    match mapLookup tenantID tm.tenantConfigs with
    | some provider => some (provider, tm)
    | none => loadTenantConfigL env held tm tenantID

/-!
The reachable states of one TenantManager instance. The public entry
points of the manager are resolution, explicit invalidation, the
file-change callback of a registered watcher, and shutdown; the
environment (filesystem and loader outcome) may differ at every step.
The file-change callback for a tenant only exists if a watcher was
registered for it, and it replays the tenant id and config path that
setupTenantWatcher captured in the closure, here recovered from the
watcher map.
-/

/-- One external stimulus applied to the manager. -/
inductive Op
  | resolve (tenantID : List Char)
  | invalidate (tenantID : List Char)
  | fileChange (tenantID : List Char)
  | shutdown

/-- State effect of one stimulus. -/
def applyOp (env : Env) (tm : TenantManager) : Op → TenantManager
  | Op.resolve tenantID => (GetTenantConfig env tm tenantID).2
  | Op.invalidate tenantID => InvalidateTenantConfig tm tenantID
  | Op.fileChange tenantID =>
    match mapLookup tenantID tm.watchers with
    | some configPath => watcherFileChangeCallback env tm tenantID configPath
    | none => tm
  | Op.shutdown => Shutdown tm

/-- The states a manager can be in, starting from NewTenantManager. -/
inductive Reachable : TenantManager → Prop
  | init (baseConfig : Provider) (configDirectory : List Char) :
      Reachable (NewTenantManager baseConfig configDirectory)
  | step {tm : TenantManager} (env : Env) (op : Op) :
      Reachable tm → Reachable (applyOp env tm op)

/-- The default tenant id is bound in neither map. -/
def defaultFree (tm : TenantManager) : Prop :=
  mapLookup defaultTenantID tm.tenantConfigs = none ∧
  mapLookup defaultTenantID tm.watchers = none

/-!
Concrete instances used to evaluate the definitions: the example tenant
"tenant1" of the repository, a configuration directory "configs", an
environment in which every file exists and loads, one with no files,
a freshly constructed manager, a manager with tenant1 cached and
watched, and a context whose tenant id entries hold non-string values.
-/

/-- The tenant id "tenant1". -/
def tenant1 : List Char := ['t', 'e', 'n', 'a', 'n', 't', '1']

/-- The configuration directory "configs". -/
def configsDir : List Char := ['c', 'o', 'n', 'f', 'i', 'g', 's']

/-- An environment in which every file exists and every load succeeds. -/
def envAllOk : Env := ⟨fun _ => true, fun _ => true⟩

/-- An environment with no files and no successful loads. -/
def envNoFiles : Env := ⟨fun _ => false, fun _ => false⟩

/-- A freshly constructed manager over the base configuration. -/
def tmInit : TenantManager := NewTenantManager Provider.base configsDir

/-- The config file path of tenant1 under tmInit. -/
def tenant1Path : List Char := getTenantConfigPath tmInit tenant1

/-- A manager state in which tenant1 is cached and watched. -/
def tmCached : TenantManager :=
  ⟨Provider.base, [(tenant1, Provider.loaded tenant1Path 0)], configsDir,
    [(tenant1, tenant1Path)], 1⟩

/-- A context whose tenant id entries both hold non-string values. -/
def ctxMismatch : Context :=
  [(xTenantIDKey, CtxValue.other 1), (configTenantIDKey, CtxValue.other 2)]

/-!
Elementary facts about the association-list maps.
-/

theorem mapLookup_mapErase {V : Type} (q k : List Char) (m : List (List Char × V)) :
    mapLookup q (mapErase k m) = if q = k then none else mapLookup q m := by
  induction m with
  | nil => simp [mapLookup, mapErase, ite_self]
  | cons kv rest ih =>
    obtain ⟨a, b⟩ := kv
    simp only [mapErase, mapLookup]
    by_cases hak : a = k <;> by_cases haq : a = q <;> by_cases hqk : q = k <;>
      simp_all [mapLookup]

theorem mapLookup_mapInsert_self {V : Type} (k : List Char) (v : V)
    (m : List (List Char × V)) : mapLookup k (mapInsert k v m) = some v := by
  simp [mapInsert, mapLookup]

theorem mapLookup_mapInsert_ne {V : Type} (q k : List Char) (v : V)
    (m : List (List Char × V)) (h : q ≠ k) :
    mapLookup q (mapInsert k v m) = mapLookup q m := by
  have hk : ¬ k = q := fun hh => h hh.symm
  simp [mapInsert, mapLookup, hk, mapLookup_mapErase, h]

theorem mapErase_of_lookup_none {V : Type} (k : List Char) (m : List (List Char × V))
    (h : mapLookup k m = none) : mapErase k m = m := by
  induction m with
  | nil => rfl
  | cons kv rest ih =>
    obtain ⟨a, b⟩ := kv
    simp only [mapLookup] at h
    by_cases hak : a = k
    · simp [hak] at h
    · simp only [hak, if_false] at h
      simp [mapErase, hak, ih h]

theorem mapErase_idem {V : Type} (k : List Char) (m : List (List Char × V)) :
    mapErase k (mapErase k m) = mapErase k m := by
  apply mapErase_of_lookup_none
  simp [mapLookup_mapErase]

theorem notMem_of_lookup_none {V : Type} (k : List Char) (m : List (List Char × V))
    (h : mapLookup k m = none) : k ∉ m.map Prod.fst := by
  induction m with
  | nil => simp
  | cons kv rest ih =>
    obtain ⟨a, b⟩ := kv
    simp only [mapLookup] at h
    by_cases hak : a = k
    · simp [hak] at h
    · simp only [hak, if_false] at h
      have hka : ¬ k = a := fun hh => hak hh.symm
      simp [ih h, hka]

theorem defaultFree_loadTenantConfig (env : Env) (tm : TenantManager) (t : List Char)
    (ht : ¬ t = defaultTenantID) (h : defaultFree tm) :
    defaultFree (loadTenantConfig env tm t).2 := by
  obtain ⟨hc, hw⟩ := h
  have hdt : ¬ defaultTenantID = t := fun hh => ht hh.symm
  cases hl : mapLookup t tm.tenantConfigs with
  | some p => simp [loadTenantConfig, hl, defaultFree, hc, hw]
  | none =>
    by_cases hf : env.fileExists (getTenantConfigPath tm t) = false
    · simp [loadTenantConfig, hl, hf, defaultFree, hc, hw]
    · by_cases hload : env.loadOk (getTenantConfigPath tm t) = true
      · simp [loadTenantConfig, hl, hf, createTenantProvider, hload, setupTenantWatcher,
          defaultFree, mapLookup_mapInsert_ne, hdt, hc, hw]
      · simp [loadTenantConfig, hl, hf, createTenantProvider, hload, defaultFree, hc, hw]

theorem defaultFree_applyOp (env : Env) (tm : TenantManager) (op : Op)
    (h : defaultFree tm) : defaultFree (applyOp env tm op) := by
  obtain ⟨hc, hw⟩ := h
  cases op with
  | resolve t =>
    by_cases ht : t = defaultTenantID
    · simp [applyOp, GetTenantConfig, ht, defaultFree, hc, hw]
    · cases hl : mapLookup t tm.tenantConfigs with
      | some p => simp [applyOp, GetTenantConfig, ht, hl, defaultFree, hc, hw]
      | none =>
        have hres := defaultFree_loadTenantConfig env tm t ht ⟨hc, hw⟩
        simpa [applyOp, GetTenantConfig, ht, hl] using hres
  | invalidate t =>
    cases hlw : mapLookup t tm.watchers with
    | some p =>
      simp [applyOp, InvalidateTenantConfig, hlw, defaultFree, mapLookup_mapErase,
        hc, hw, ite_self]
    | none =>
      simp [applyOp, InvalidateTenantConfig, hlw, defaultFree, mapLookup_mapErase,
        hc, hw, ite_self]
  | fileChange t =>
    cases hlw : mapLookup t tm.watchers with
    | none => simp [applyOp, hlw, defaultFree, hc, hw]
    | some path =>
      have hdt : ¬ defaultTenantID = t := by
        intro hh
        rw [← hh, hw] at hlw
        cases hlw
      by_cases hload : env.loadOk path = true
      · simp [applyOp, hlw, watcherFileChangeCallback, preloadTenantConfig,
          createTenantProvider, invalidateTenantConfigUnsafe, hload, defaultFree,
          mapLookup_mapInsert_ne, hdt, mapLookup_mapErase, hc, hw, ite_self]
      · simp [applyOp, hlw, watcherFileChangeCallback, preloadTenantConfig,
          createTenantProvider, invalidateTenantConfigUnsafe, hload, defaultFree,
          mapLookup_mapErase, hc, hw, ite_self]
  | shutdown => simp [applyOp, Shutdown, defaultFree, hc, hw, mapLookup]

theorem reachable_defaultFree {tm : TenantManager} (h : Reachable tm) : defaultFree tm := by
  induction h with
  | init baseConfig configDirectory => exact ⟨rfl, rfl⟩
  | step env op _ ih => exact defaultFree_applyOp env _ op ih

/-!
Claim theorems.
-/

/-- Claim C1: the claim states that for every input containing ".." or a path
separator, extractTenantID returns a string containing neither. It fails
on the code: the input "./." contains the separator and sanitizes to
"..", because the ".." stripping runs before the separator stripping,
so removing a separator can create a new ".." occurrence. -/
theorem C1_extractTenantID_dotdot_escape :
    containsSub ['/'] ['.', '/', '.'] = true ∧
    extractTenantID ['.', '/', '.'] = ['.', '.'] ∧
    containsSub ['.', '.'] (extractTenantID ['.', '/', '.']) = true := by decide

/-- Claim C2: the claim states that the tenant id the middleware stores into
the context is read back by TenantAwareConfig.GetProvider. It fails on
the code: the middleware stores under x.TenantContextKey("tenant_id")
while GetProvider reads config.TenantContextKey("tenant_id"), a key of
a different dynamic type, so for the header "tenant1" the store is
visible to GetTenantID but GetProvider resolves "default". The
absent-key part of the claim does hold: an empty context resolves to
the default id. -/
theorem C2_context_roundtrip_broken :
    getTenantID (tenantMiddlewareCtx [] tenant1) = tenant1 ∧
    tenantAwareResolveTenantID (tenantMiddlewareCtx [] tenant1) = defaultTenantID ∧
    tenant1 ≠ defaultTenantID ∧
    tenantAwareResolveTenantID [] = defaultTenantID := by decide

/-- Claim C3: the claim states that for a tenant with an existing, loadable
config file, the load call stores the snapshot, starts a watcher and
returns to the caller. It fails on the code: loadTenantConfig holds the
write lock of the non-reentrant RWMutex and calls setupTenantWatcher,
which acquires the same lock again, so the success path deadlocks and
never returns. -/
theorem C3_loadTenantConfig_success_path_deadlocks :
    envAllOk.fileExists (getTenantConfigPath tmInit tenant1) = true ∧
    envAllOk.loadOk (getTenantConfigPath tmInit tenant1) = true ∧
    loadTenantConfigL envAllOk false tmInit tenant1 = none := by decide

/-- Claim C4: Resolve on the default tenant returns the base snapshot with
the state untouched, and in every reachable state the default tenant id
has no cache entry. -/
theorem C4_resolve_default_never_cached (env : Env) (tm : TenantManager)
    (h : Reachable tm) :
    GetTenantConfig env tm defaultTenantID = (tm.baseConfig, tm) ∧
    mapLookup defaultTenantID tm.tenantConfigs = none :=
  ⟨by simp [GetTenantConfig], (reachable_defaultFree h).1⟩

/-- Witness for C4 at the freshly constructed manager. -/
theorem C4_witness :
    Reachable tmInit ∧
    (GetTenantConfig envNoFiles tmInit defaultTenantID = (tmInit.baseConfig, tmInit) ∧
     mapLookup defaultTenantID tmInit.tenantConfigs = none) :=
  ⟨Reachable.init Provider.base configsDir,
    C4_resolve_default_never_cached envNoFiles tmInit
      (Reachable.init Provider.base configsDir)⟩

/-- Claim C5: for a non-default uncached tenant whose file is missing or whose
load fails, Resolve returns the base snapshot with the state untouched,
a repeated Resolve does the same, and the statistics after the call do
not list the tenant as cached. -/
theorem C5_missing_or_failing_load_falls_back (env : Env) (tm : TenantManager)
    (t : List Char) (hne : t ≠ defaultTenantID)
    (hmiss : mapLookup t tm.tenantConfigs = none)
    (hfail : env.fileExists (getTenantConfigPath tm t) = false ∨
      env.loadOk (getTenantConfigPath tm t) = false) :
    GetTenantConfig env tm t = (tm.baseConfig, tm) ∧
    GetTenantConfig env (GetTenantConfig env tm t).2 t = (tm.baseConfig, tm) ∧
    t ∉ (GetTenantConfigStats (GetTenantConfig env tm t).2).loadedTenantIDs := by
  have hbase : GetTenantConfig env tm t = (tm.baseConfig, tm) := by
    rcases hfail with hf | hl
    · simp [GetTenantConfig, hne, hmiss, loadTenantConfig, hf]
    · by_cases hf : env.fileExists (getTenantConfigPath tm t) = false
      · simp [GetTenantConfig, hne, hmiss, loadTenantConfig, hf]
      · simp [GetTenantConfig, hne, hmiss, loadTenantConfig, hf,
          createTenantProvider, hl]
  refine ⟨hbase, ?_, ?_⟩
  · rw [hbase]
    exact hbase
  · rw [hbase]
    exact notMem_of_lookup_none t tm.tenantConfigs hmiss

/-- Witness for C5: the never-seen tenant1 in the environment with no
files, starting from the fresh manager. -/
theorem C5_witness :
    (tenant1 ≠ defaultTenantID ∧
     mapLookup tenant1 tmInit.tenantConfigs = none ∧
     envNoFiles.fileExists (getTenantConfigPath tmInit tenant1) = false) ∧
    (GetTenantConfig envNoFiles tmInit tenant1 = (tmInit.baseConfig, tmInit) ∧
     GetTenantConfig envNoFiles (GetTenantConfig envNoFiles tmInit tenant1).2 tenant1
       = (tmInit.baseConfig, tmInit) ∧
     tenant1 ∉ (GetTenantConfigStats (GetTenantConfig envNoFiles tmInit tenant1).2).loadedTenantIDs) :=
  ⟨⟨by decide, by decide, by decide⟩,
    C5_missing_or_failing_load_falls_back envNoFiles tmInit tenant1
      (by decide) (by decide) (Or.inl (by decide))⟩

/-- Claim C6: the file-change callback first removes the cache entry of the
tenant; if the background preload fails, the state is exactly the
invalidated one, leaving no entry for the tenant; if the preload
succeeds, a fresh snapshot replaces the entry. -/
theorem C6_filechange_invalidates_then_preloads (env : Env) (tm : TenantManager)
    (t configPath : List Char)
    (_hcached : (mapLookup t tm.tenantConfigs).isSome = true) :
    mapLookup t (invalidateTenantConfigUnsafe tm t).tenantConfigs = none ∧
    (env.loadOk configPath = false →
      watcherFileChangeCallback env tm t configPath = invalidateTenantConfigUnsafe tm t ∧
      mapLookup t (watcherFileChangeCallback env tm t configPath).tenantConfigs = none) ∧
    (env.loadOk configPath = true →
      mapLookup t (watcherFileChangeCallback env tm t configPath).tenantConfigs
        = some (Provider.loaded configPath tm.nextGen)) := by
  refine ⟨?_, ?_, ?_⟩
  · simp [invalidateTenantConfigUnsafe, mapLookup_mapErase]
  · intro hl
    constructor
    · simp [watcherFileChangeCallback, preloadTenantConfig, createTenantProvider, hl]
    · simp [watcherFileChangeCallback, preloadTenantConfig, createTenantProvider, hl,
        invalidateTenantConfigUnsafe, mapLookup_mapErase]
  · intro hl
    simp [watcherFileChangeCallback, preloadTenantConfig, createTenantProvider, hl,
      invalidateTenantConfigUnsafe, mapLookup_mapInsert_self]

/-- Witness for C6 at the manager with tenant1 cached, in the
environment in which every load succeeds. -/
theorem C6_witness :
    (mapLookup tenant1 tmCached.tenantConfigs).isSome = true ∧
    (mapLookup tenant1 (invalidateTenantConfigUnsafe tmCached tenant1).tenantConfigs = none ∧
     (envAllOk.loadOk tenant1Path = false →
       watcherFileChangeCallback envAllOk tmCached tenant1 tenant1Path
         = invalidateTenantConfigUnsafe tmCached tenant1 ∧
       mapLookup tenant1
         (watcherFileChangeCallback envAllOk tmCached tenant1 tenant1Path).tenantConfigs = none) ∧
     (envAllOk.loadOk tenant1Path = true →
       mapLookup tenant1
         (watcherFileChangeCallback envAllOk tmCached tenant1 tenant1Path).tenantConfigs
         = some (Provider.loaded tenant1Path tmCached.nextGen))) :=
  ⟨by decide,
    C6_filechange_invalidates_then_preloads envAllOk tmCached tenant1 tenant1Path (by decide)⟩

/-- Claim C7: invalidation removes the cache entry and the watcher handle of
the tenant, it is idempotent, and invalidating a tenant that has
neither a cache entry nor a watcher leaves the state unchanged. -/
theorem C7_invalidate_idempotent (tm : TenantManager) (t : List Char) :
    mapLookup t (InvalidateTenantConfig tm t).tenantConfigs = none ∧
    mapLookup t (InvalidateTenantConfig tm t).watchers = none ∧
    InvalidateTenantConfig (InvalidateTenantConfig tm t) t = InvalidateTenantConfig tm t ∧
    (mapLookup t tm.tenantConfigs = none → mapLookup t tm.watchers = none →
      InvalidateTenantConfig tm t = tm) := by
  cases hlw : mapLookup t tm.watchers with
  | some p =>
    refine ⟨?_, ?_, ?_, ?_⟩
    · simp [InvalidateTenantConfig, hlw, mapLookup_mapErase]
    · simp [InvalidateTenantConfig, hlw, mapLookup_mapErase]
    · simp [InvalidateTenantConfig, hlw, mapLookup_mapErase, mapErase_idem]
    · intro hc hw
      simp at hw
  | none =>
    refine ⟨?_, ?_, ?_, ?_⟩
    · simp [InvalidateTenantConfig, hlw, mapLookup_mapErase]
    · simp [InvalidateTenantConfig, hlw]
    · simp [InvalidateTenantConfig, hlw, mapErase_idem]
    · intro hc hw
      simp [InvalidateTenantConfig, hlw, mapErase_of_lookup_none t _ hc]

/-- Witness for C7 at the manager with tenant1 cached and watched. -/
theorem C7_witness :
    mapLookup tenant1 (InvalidateTenantConfig tmCached tenant1).tenantConfigs = none ∧
    mapLookup tenant1 (InvalidateTenantConfig tmCached tenant1).watchers = none ∧
    InvalidateTenantConfig (InvalidateTenantConfig tmCached tenant1) tenant1
      = InvalidateTenantConfig tmCached tenant1 ∧
    (mapLookup tenant1 tmCached.tenantConfigs = none →
      mapLookup tenant1 tmCached.watchers = none →
      InvalidateTenantConfig tmCached tenant1 = tmCached) :=
  C7_invalidate_idempotent tmCached tenant1

/-- Claim C8: Shutdown empties the watcher map, does not touch the tenant
config cache, and a cached tenant can still be resolved from its cached
snapshot after shutdown. -/
theorem C8_shutdown_frame (env : Env) (tm : TenantManager) (t : List Char) (p : Provider)
    (hne : t ≠ defaultTenantID) (hcached : mapLookup t tm.tenantConfigs = some p) :
    (Shutdown tm).watchers = [] ∧
    (Shutdown tm).tenantConfigs = tm.tenantConfigs ∧
    GetTenantConfig env (Shutdown tm) t = (p, Shutdown tm) := by
  refine ⟨rfl, rfl, ?_⟩
  simp [GetTenantConfig, Shutdown, hne, hcached]

/-- Witness for C8 at the manager with tenant1 cached and watched. -/
theorem C8_witness :
    (tenant1 ≠ defaultTenantID ∧
     mapLookup tenant1 tmCached.tenantConfigs = some (Provider.loaded tenant1Path 0)) ∧
    ((Shutdown tmCached).watchers = [] ∧
     (Shutdown tmCached).tenantConfigs = tmCached.tenantConfigs ∧
     GetTenantConfig envNoFiles (Shutdown tmCached) tenant1
       = (Provider.loaded tenant1Path 0, Shutdown tmCached)) :=
  ⟨⟨by decide, by decide⟩,
    C8_shutdown_frame envNoFiles tmCached tenant1 (Provider.loaded tenant1Path 0)
      (by decide) (by decide)⟩

/-- Claim C9: the claim states that concurrent first-time Resolve calls for a
never-seen tenant perform one load and all callers receive the same
snapshot. It fails on the code: already a single first-time Resolve of
a tenant with a loadable file deadlocks inside setupTenantWatcher while
holding the write lock, so no caller ever receives the snapshot (and
every racing caller blocks on the lock the winner never releases). -/
theorem C9_first_resolve_never_returns :
    mapLookup tenant1 tmInit.tenantConfigs = none ∧
    GetTenantConfigL envAllOk false tmInit tenant1 = none := by decide

/-- Claim C10: whenever the respective tenant id entry of the context is
absent or holds a non-string value, GetTenantID and the tenant
resolution of TenantAwareConfig.GetProvider both return "default". -/
theorem C10_nonstring_context_value_degrades_to_default (ctx : Context)
    (hx : isStrValue (ctx.value xTenantIDKey) = false)
    (hc : isStrValue (ctx.value configTenantIDKey) = false) :
    getTenantID ctx = defaultTenantID ∧
    tenantAwareResolveTenantID ctx = defaultTenantID := by
  constructor
  · unfold getTenantID
    cases hv : ctx.value xTenantIDKey with
    | none => rfl
    | some v =>
      cases v with
      | str s =>
        rw [hv] at hx
        simp [isStrValue] at hx
      | other n => rfl
  · unfold tenantAwareResolveTenantID
    cases hv : ctx.value configTenantIDKey with
    | none => rfl
    | some v =>
      cases v with
      | str s =>
        rw [hv] at hc
        simp [isStrValue] at hc
      | other n => rfl

/-- Witness for C10 at a context holding non-string values under both
tenant id keys. -/
theorem C10_witness :
    (isStrValue (Context.value ctxMismatch xTenantIDKey) = false ∧
     isStrValue (Context.value ctxMismatch configTenantIDKey) = false) ∧
    (getTenantID ctxMismatch = defaultTenantID ∧
     tenantAwareResolveTenantID ctxMismatch = defaultTenantID) :=
  ⟨⟨by decide, by decide⟩,
    C10_nonstring_context_value_degrades_to_default ctxMismatch (by decide) (by decide)⟩
